import Mathlib

namespace SDHA

/-!
Verification development for the streamdeck-homeassistant controller.

The definitions below are a shallow embedding of the TypeScript sources:
`src/PageRenderer.ts` (hash-cached revision), `src/IconManager.ts`,
`src/NavigationManager.ts` (NavigationManager, StateManager,
`computeLightStyle` and its helpers), `src/index.ts` (the MQTT
`config/set` branch) and `src/types.ts` (the data model).
JavaScript numbers are modelled as rationals (`ℚ`), machine strings as
`String`, `Buffer`s as `List Nat` of bytes, and the asynchronous device
and logging effects as explicit lists of operations.
-/

/-- JS `a || b` for an optional string field: `undefined` and the empty
string are falsy, anything else is returned as-is. -/
def jsOr (a : Option String) (b : String) : String :=
  match a with
  | none => b
  | some s => if s = "" then b else s

/-- JS truthiness of an optional string (`undefined` and `""` are falsy). -/
def jsTruthy (a : Option String) : Bool :=
  match a with
  | none => false
  | some s => if s = "" then false else true

/-- Value of one hex digit, `parseInt` style; non-hex characters give 0. -/
def hexVal (c : Char) : Nat :=
  if 48 ≤ c.toNat ∧ c.toNat ≤ 57 then c.toNat - 48
  else if 97 ≤ c.toNat ∧ c.toNat ≤ 102 then c.toNat - 87
  else if 65 ≤ c.toNat ∧ c.toNat ≤ 70 then c.toNat - 55
  else 0

/-- Character of a string at an index, `'\x00'` when out of range. -/
def charAt (s : String) (i : Nat) : Char :=
  s.toList.getD i (Char.ofNat 0)

/-- JS `s.startsWith(p)`, computed on the character lists so that it
reduces definitionally. -/
def strStartsWith (s p : String) : Bool := List.isPrefixOf p.toList s.toList

/-- `parseInt(s.substr(i, 2), 16)` for the two hex digits at `i`. -/
def parseHexByte (s : String) (i : Nat) : Nat :=
  16 * hexVal (charAt s i) + hexVal (charAt s (i + 1))

/-- A raw RGB key buffer filled with one color, as built by the
background-only branch of `renderButtonToBuffer`. -/
def solidBuffer (size r g b : Nat) : List Nat :=
  (List.replicate (size * size) [r, g, b]).flatten

/-- The actions a button can carry (`src/types.ts`). -/
inductive Action where
  | mqtt (topic payload : String) (retain : Bool)
  | navigate (page : String)
  | command (command : String) (value : Option Int)
  | ha (service : String) (entityId : Option String)
deriving DecidableEq, Repr

/-- `ButtonConfig` from `src/types.ts`: optional fields are `Option`s. -/
structure ButtonConfig where
  key : Nat
  text : Option String := none
  icon : Option String := none
  color : Option String := none
  iconColor : Option String := none
  textColor : Option String := none
  titleAlign : Option String := none
  action : Option Action := none
  useEntityState : Bool := false
  stateEntity : Option String := none
deriving DecidableEq, Repr

/-- The record `getButtonHash` feeds to `JSON.stringify` before MD5:
every visually relevant field after default substitution, plus the
device icon size.  `createHash('md5').update(JSON.stringify(hashInput))`
is a function of this record (the key order is fixed by the object
literal), so equal records always yield equal MD5 cache keys; the
development only ever uses that direction, so the cache key is modelled
by this record itself. -/
structure HashInput where
  text : String
  icon : String
  color : String
  iconColor : String
  textColor : String
  titleAlign : String
  size : Nat
deriving DecidableEq, Repr

/-- `PageRenderer.getButtonHash`: canonicalize the visual fields with the
defaults `#333333` / `#ffffff` / `#ffffff` / `middle` and pair them with
the device icon size. -/
def getButtonHash (cfg : ButtonConfig) (iconSize : Nat) : HashInput :=
  { text := jsOr cfg.text ""
    icon := jsOr cfg.icon ""
    color := jsOr cfg.color "#333333"
    iconColor := jsOr cfg.iconColor "#ffffff"
    textColor := jsOr cfg.textColor "#ffffff"
    titleAlign := jsOr cfg.titleAlign "middle"
    size := iconSize }

/-- The text and icon rasterization pipelines of `renderButtonToBuffer`
(Jimp font drawing, `IconManager.getIconBuffer`).  In the source both
pipelines read exactly the canonicalized visual fields and the device
icon size, so they are modelled as deterministic functions of the
`HashInput` record. -/
structure RasterOracle where
  textRender : HashInput → Except String (List Nat)
  iconRender : HashInput → Except String (List Nat)

/-- `PageRenderer.renderButtonToBuffer`: text branch, icon branch, solid
background fast path, and the `null` fall-through when the background
color does not start with `#`.  An `Except.error` models a raised
exception (the icon pipeline can throw, see `getIconJimp`). -/
def renderButtonToBuffer (ro : RasterOracle) (size : Nat) (cfg : ButtonConfig) :
    Except String (Option (List Nat)) :=
  let bgColor := jsOr cfg.color "#333333"
  if jsTruthy cfg.text then (ro.textRender (getButtonHash cfg size)).map some
  else if jsTruthy cfg.icon then (ro.iconRender (getButtonHash cfg size)).map some
  else if strStartsWith bgColor "#" then
    .ok (some (solidBuffer size (parseHexByte bgColor 1) (parseHexByte bgColor 3)
      (parseHexByte bgColor 5)))
  else .ok none

/-- Light-relevant attributes of an entity state (`attrs.rgb_color`,
`attrs.hs_color`, `attrs.color_temp`, `attrs.brightness`); absent
attributes are `none`.  JS numbers are modelled as rationals. -/
structure LightAttrs where
  rgb_color : Option (ℚ × ℚ × ℚ) := none
  hs_color : Option (ℚ × ℚ) := none
  color_temp : Option ℚ := none
  brightness : Option ℚ := none
deriving DecidableEq, Repr

/-- `EntityState` from `src/types.ts`. -/
structure EntityState where
  entity_id : String
  state : String
  attributes : LightAttrs := {}
  last_changed : String := ""
  last_updated : String := ""
deriving DecidableEq, Repr

/-- The record returned by `computeLightStyle`. -/
structure LightStyle where
  color : String
  iconColor : String
  textColor : String
  icon : String
deriving DecidableEq, Repr

/-- `Math.round` on a JS number: floor of `q + 1/2` (half away from zero
upward, as in JS). -/
def jsRound (q : ℚ) : ℤ := ⌊q + 1 / 2⌋

/-- JS truncation toward zero, used by the `%` remainder operator. -/
def jsTrunc (q : ℚ) : ℤ := if 0 ≤ q then ⌊q⌋ else -⌊-q⌋

/-- JS `%` remainder (sign of the dividend), for a nonzero divisor. -/
def jsMod (a b : ℚ) : ℚ := a - b * (jsTrunc (a / b) : ℚ)

/-- Lower-case hex digit of a value below 16, as in `Number.toString(16)`. -/
def hexDigitChar (n : Nat) : Char :=
  if n < 10 then Char.ofNat (48 + n) else Char.ofNat (87 + n)

/-- `n.toString(16)` for an integer in `[0, 255]`: one digit below 16,
two digits otherwise. -/
def toString16 (n : Nat) : String :=
  if n < 16 then String.mk [hexDigitChar n]
  else String.mk [hexDigitChar (n / 16), hexDigitChar (n % 16)]

/-- `padStart(2, '0')`. -/
def padStart2 (s : String) : String :=
  if s.length = 0 then "00" else if s.length = 1 then "0" ++ s else s

/-- `toHex` helper of `src/NavigationManager.ts`: round, clamp to
`[0, 255]`, render in base 16 and pad to two digits. -/
def toHex (value : ℚ) : String :=
  let clamped : ℤ := max 0 (min 255 (jsRound value))
  padStart2 (toString16 clamped.toNat)

/-- `hsToRgb` helper: simplified hue/saturation to RGB conversion. -/
def hsToRgb (h s : ℚ) : ℚ × ℚ × ℚ :=
  let c := s
  let x := c * (1 - |jsMod (h / 60) 2 - 1|)
  let m := 1 - c
  let rgb : ℚ × ℚ × ℚ :=
    if h < 60 then (c, x, 0)
    else if h < 120 then (x, c, 0)
    else if h < 180 then (0, c, x)
    else if h < 240 then (0, x, c)
    else if h < 300 then (x, 0, c)
    else (c, 0, x)
  ((jsRound ((rgb.1 + m) * 255) : ℤ), (jsRound ((rgb.2.1 + m) * 255) : ℤ),
    (jsRound ((rgb.2.2 + m) * 255) : ℤ))

/-- `colorTempToRgb` helper: mired to a warm/neutral/cool RGB bucket.
In JS `1000000 / 0` is `Infinity`, which falls in the cool bucket; that
case is written out explicitly here because rational division by zero
yields 0. -/
def colorTempToRgb (mired : ℚ) : ℚ × ℚ × ℚ :=
  if mired = 0 then (200, 220, 255)
  else
    let kelvin := 1000000 / mired
    if kelvin ≤ 4000 then (255, 180, 100)
    else if kelvin ≤ 5500 then (255, 240, 220)
    else (200, 220, 255)

/-- The brightness factor of `computeLightStyle`:
`attrs.brightness !== undefined ? Math.max(0.3, attrs.brightness / 255) : 1`. -/
def brightnessFactor (b : Option ℚ) : ℚ :=
  match b with
  | some v => max (3 / 10) (v / 255)
  | none => 1

/-- `computeLightStyle` from `src/NavigationManager.ts`: style derivation
for a light entity.  `attrs.color_temp` is guarded by JS truthiness, so
a color temperature of 0 is skipped. -/
def computeLightStyle (state : Option EntityState) (baseConfig : ButtonConfig) :
    LightStyle :=
  let defaultOffStyle : LightStyle :=
    { color := "#1a1a1a", iconColor := "#666666", textColor := "#888888",
      icon := jsOr baseConfig.icon "ph:lightbulb" }
  match state with
  | none => defaultOffStyle
  | some st =>
    if st.state = "off" ∨ st.state = "unavailable" ∨ st.state = "unknown" then
      defaultOffStyle
    else
      let attrs := st.attributes
      let lightColor : Option (ℚ × ℚ × ℚ) :=
        match attrs.rgb_color with
        | some rgb => some rgb
        | none =>
          match attrs.hs_color with
          | some hs => some (hsToRgb hs.1 (hs.2 / 100))
          | none =>
            match attrs.color_temp with
            | some ct => if ct = 0 then none else some (colorTempToRgb ct)
            | none => none
      let brightness := brightnessFactor attrs.brightness
      match lightColor with
      | some lc =>
        let bgColor := "#" ++ toHex (lc.1 * brightness) ++ toHex (lc.2.1 * brightness)
          ++ toHex (lc.2.2 * brightness)
        let luminance :=
          (299 / 1000 * lc.1 + 587 / 1000 * lc.2.1 + 114 / 1000 * lc.2.2) / 255 * brightness
        let contrastColor := if luminance > 1 / 2 then "#000000" else "#ffffff"
        { color := bgColor, iconColor := contrastColor, textColor := contrastColor,
          icon := jsOr baseConfig.icon "ph:lightbulb-filament" }
      | none =>
        let brightLevel : ℚ := ((⌊brightness * 255⌋ : ℤ) : ℚ)
        { color := "#" ++ toHex brightLevel ++ toHex (brightLevel * (9 / 10))
            ++ toHex (brightLevel * (7 / 10)),
          iconColor := "#000000", textColor := "#000000",
          icon := jsOr baseConfig.icon "ph:lightbulb-filament" }

/-- Association-list lookup keyed by strings (JS `Map.get` / object index). -/
def assocLookup {β : Type} (m : List (String × β)) (id : String) : Option β :=
  match m with
  | [] => none
  | (k, v) :: rest => if k = id then some v else assocLookup rest id

/-- `Map.set`: overwrite an existing key or append a new binding. -/
def assocSet {β : Type} (m : List (String × β)) (id : String) (v : β) :
    List (String × β) :=
  match m with
  | [] => [(id, v)]
  | (k, w) :: rest => if k = id then (id, v) :: rest else (k, w) :: assocSet rest id v

/-- The mutable state of `StateManager` that `handleMessage` touches:
the latest-value map and the subscribed-entity set. -/
structure SMState where
  entityStates : List (String × EntityState) := []
  subscribedEntities : List String := []
deriving DecidableEq, Repr

/-- `StateManager.getState`. -/
def getState (s : SMState) (entityId : String) : Option EntityState :=
  assocLookup s.entityStates entityId

/-- Inbound websocket messages, restricted to the fields
`StateManager.handleMessage` reads.  `event` carries the `state_changed`
payload (`entity_id`, `new_state`), `result` the `get_states` response. -/
inductive HAMessage where
  | event (eventType : String) (entityId : String) (newState : Option EntityState)
  | result (success : Bool) (result : Option (List EntityState))
  | other (msgType : String)
deriving DecidableEq, Repr

/-- Notifications emitted by `handleMessage` (`this.emit('stateChanged', …)`). -/
inductive SMEmit where
  | stateChanged (entityId : String) (st : EntityState)
deriving DecidableEq, Repr

/-- Entity id of an emitted notification. -/
def SMEmit.entityId : SMEmit → String
  | .stateChanged id _ => id

/-- The per-entity loop of the `result` branch of `handleMessage`. -/
def processResultEntities (s : SMState) (emits : List SMEmit) :
    List EntityState → SMState × List SMEmit
  | [] => (s, emits)
  | e :: rest =>
    if s.subscribedEntities.contains e.entity_id then
      processResultEntities
        { s with entityStates := assocSet s.entityStates e.entity_id e }
        (emits ++ [.stateChanged e.entity_id e]) rest
    else processResultEntities s emits rest

/-- `StateManager.handleMessage`, restricted to the branches that touch
`entityStates` (`event` with `state_changed`, and `result`); the auth
branches leave the map untouched and are folded into `other`. -/
def handleMessage (s : SMState) (msg : HAMessage) : SMState × List SMEmit :=
  match msg with
  | .event eventType entityId newState =>
    if eventType = "state_changed" then
      match newState with
      | some ns =>
        if s.subscribedEntities.contains entityId then
          ({ s with entityStates := assocSet s.entityStates entityId ns },
            [.stateChanged entityId ns])
        else (s, [])
      | none => (s, [])
    else (s, [])
  | .result success result =>
    if success then
      match result with
      | some entities => processResultEntities s [] entities
      | none => (s, [])
    else (s, [])
  | .other _ => (s, [])

/-- `PageRenderer.getEffectiveConfig`: apply entity-state styling when
`useEntityState` is set and a state manager is attached.  The tracked id
is `stateEntity || action.entityId` (JS truthiness), the domain is the
part of the id before the first dot. -/
def getEffectiveConfig (sm : Option SMState) (cfg : ButtonConfig) : ButtonConfig :=
  if ¬ cfg.useEntityState then cfg
  else
    match sm with
    | none => cfg
    | some smState =>
      let actionEntityId : Option String :=
        match cfg.action with
        | some (.ha _ entityId) => entityId
        | _ => none
      let entityId : Option String :=
        match cfg.stateEntity with
        | some s => if s = "" then actionEntityId else some s
        | none => actionEntityId
      match entityId with
      | none => cfg
      | some eid =>
        if eid = "" then cfg
        else
          let st := getState smState eid
          let domain := (eid.splitOn ".").headD ""
          if domain = "light" then
            let style := computeLightStyle st cfg
            { cfg with color := some style.color, iconColor := some style.iconColor,
                       textColor := some style.textColor, icon := some style.icon }
          else
            match st with
            | some s2 =>
              if s2.state = "on" then
                { cfg with color := some (jsOr cfg.color "#1a5f1a"),
                           iconColor := some "#ffffff", textColor := some "#ffffff" }
              else
                { cfg with color := some "#1a1a1a", iconColor := some "#666666",
                           textColor := some "#888888" }
            | none =>
              { cfg with color := some "#1a1a1a", iconColor := some "#666666",
                         textColor := some "#888888" }

/-- The content-addressed render cache of `PageRenderer`
(`Map<string, Buffer>` keyed by the MD5 of the canonical record). -/
abbrev RenderCache : Type := List (HashInput × List Nat)

/-- Cache lookup (`this.cache.get(hash)`). -/
def cacheLookup (c : RenderCache) (h : HashInput) : Option (List Nat) :=
  match c with
  | [] => none
  | (k, v) :: rest => if k = h then some v else cacheLookup rest h

/-- The fixed per-render context: the rasterization oracles, the attached
state manager, the device icon size and key count. -/
structure RenderCtx where
  raster : RasterOracle
  sm : Option SMState := none
  iconSize : Nat
  numKeys : Nat

/-- `PageRenderer.getKeyBuffer`: compute the effective config, hash it,
return the cached buffer on a hit, otherwise render and (when a buffer
was produced) cache it.  The returned `Bool` records whether
`renderButtonToBuffer` was entered (`false` = cache hit).  An exception
raised during rendering propagates to the caller. -/
def getKeyBuffer (ctx : RenderCtx) (cfg : ButtonConfig) (cache : RenderCache) :
    Except String (Option (List Nat) × RenderCache × Bool) :=
  match cacheLookup cache (getButtonHash (getEffectiveConfig ctx.sm cfg) ctx.iconSize) with
  | some buf => .ok (some buf, cache, false)
  | none =>
    match renderButtonToBuffer ctx.raster ctx.iconSize (getEffectiveConfig ctx.sm cfg) with
    | .error e => .error e
    | .ok none => .ok (none, cache, true)
    | .ok (some buf) =>
      .ok (some buf,
        (getButtonHash (getEffectiveConfig ctx.sm cfg) ctx.iconSize, buf) :: cache, true)

/-- Device operations pushed to the Stream Deck collaborator. -/
inductive DeviceOp where
  | clearKey (i : Nat)
  | fillKeyBuffer (i : Nat) (buf : List Nat)
  | setBrightness (b : ℤ)
deriving DecidableEq, Repr

/-- The per-button loop of `PageRenderer.renderPage`: each button is
rendered inside its own try/catch, so a raised exception is absorbed
into a log entry and the remaining buttons still render. -/
def renderButtons (ctx : RenderCtx) (page : List ButtonConfig) (cache : RenderCache)
    (ops : List DeviceOp) (logs : List String) :
    List DeviceOp × RenderCache × List String :=
  match page with
  | [] => (ops, cache, logs)
  | btn :: rest =>
    match getKeyBuffer ctx btn cache with
    | .error e =>
      renderButtons ctx rest cache ops (logs ++ ["Error rendering key " ++ toString btn.key ++ ": " ++ e])
    | .ok (none, c2, _) => renderButtons ctx rest c2 ops logs
    | .ok (some buf, c2, _) =>
      renderButtons ctx rest c2 (ops ++ [.fillKeyBuffer btn.key buf]) logs

/-- `PageRenderer.renderPage`: clear every device key, then render and
push every button of the page; it returns normally for every input. -/
def renderPage (ctx : RenderCtx) (page : List ButtonConfig) (cache : RenderCache) :
    List DeviceOp × RenderCache × List String :=
  renderButtons ctx page cache ((List.range ctx.numKeys).map .clearKey) []

/-- `DeviceConfig` from `src/types.ts`: optional brightness plus the
page-name → button-list map. -/
structure DeviceConfig where
  brightness : Option ℤ := none
  pages : List (String × List ButtonConfig) := []
deriving DecidableEq, Repr

/-- The navigation state: the current page name (initially `default`). -/
structure NavState where
  currentPageName : String := "default"
deriving DecidableEq, Repr

/-- `NavigationManager.navigateTo`: when the target page exists,
transition and render it fully; otherwise log `Page not found` and leave
everything untouched. -/
def navigateTo (config : DeviceConfig) (ctx : RenderCtx) (cache : RenderCache)
    (s : NavState) (pageName : String) :
    NavState × List DeviceOp × RenderCache × List String :=
  match assocLookup config.pages pageName with
  | some page =>
    let r := renderPage ctx page cache
    ({ currentPageName := pageName }, r.1, r.2.1,
      ["Navigating to page: " ++ pageName] ++ r.2.2)
  | none => (s, [], cache, ["Page not found: " ++ pageName])

/-- `NavigationManager.handleButtonPress`: resolve the button on the
current page; navigation actions are handled locally, every other action
is returned to the caller for execution. -/
def handleButtonPress (config : DeviceConfig) (ctx : RenderCtx) (cache : RenderCache)
    (s : NavState) (keyIndex : Nat) :
    Option Action × NavState × List DeviceOp × RenderCache × List String :=
  match assocLookup config.pages s.currentPageName with
  | none => (none, s, [], cache, [])
  | some page =>
    match page[keyIndex]? with
    | none => (none, s, [], cache, [])
    | some button =>
      match button.action with
      | none => (none, s, [], cache, [])
      | some (.navigate target) =>
        let r := navigateTo config ctx cache s target
        (none, r)
      | some a => (some a, s, [], cache, [])

/-- A parsed `config/set` payload before validation: `pages` may be
absent (`undefined`/`null` in the JSON). -/
structure RawConfig where
  brightness : Option ℤ := none
  pages : Option (List (String × List ButtonConfig)) := none
deriving DecidableEq, Repr

/-- Side effects of the MQTT message handler in `src/index.ts`. -/
inductive MqttEffect where
  | persistConfig (cfg : DeviceConfig)
  | applyToNav (cfg : DeviceConfig)
  | publishStatus (status : String) (error : Option String)
  | deviceOp (op : DeviceOp)
deriving DecidableEq, Repr

/-- The `config/set` branch of `client.on('message')` in `src/index.ts`:
a payload that parsed to a falsy value or lacks `pages` is rejected with
an error acknowledgment (published only when the device is open) and
nothing else happens; otherwise `applyConfig` persists the config,
updates the navigation manager and acknowledges success.  The function
returns the configuration active afterwards together with the effects
performed. -/
def handleConfigSetMessage (deviceReady : Bool) (payload : Option RawConfig)
    (active : DeviceConfig) : DeviceConfig × List MqttEffect :=
  let pagesOk : Bool :=
    match payload with
    | some p => p.pages.isSome
    | none => false
  if pagesOk then
    match payload with
    | some p =>
      let newCfg : DeviceConfig := { brightness := p.brightness, pages := p.pages.getD [] }
      (newCfg,
        [.persistConfig newCfg, .applyToNav newCfg, .publishStatus "applied" none])
    | none => (active, [])
  else
    (active,
      if deviceReady then
        [.publishStatus "error" (some "Invalid config format: missing pages")]
      else [])

/-- Images as produced by the Jimp/Resvg pipeline of `IconManager`:
solid fills, decoded external rasters, and the results of `cover` and
`composite`. -/
inductive Img where
  | solid (w h : Nat) (color : String)
  | ext (tag : String) (w h : Nat)
  | covered (i : Img) (w h : Nat)
  | composited (base over : Img) (x y : Nat)
deriving DecidableEq, Repr

/-- Jimp `cover(w, h)`: aspect-preserving scale plus center crop.  On a
solid fill it yields the solid fill at the new dimensions. -/
def Img.cover : Img → Nat → Nat → Img
  | .solid _ _ c, w, h => .solid w h c
  | i, w, h => .covered i w h

/-- The external world `IconManager.getIconJimp` interacts with: whether
the Phosphor SVG file exists, and the decode results of the Resvg/Jimp
pipeline, local file reads and remote fetches. -/
structure IconWorld where
  phExists : String → Bool
  phDecode : String → Except String Img
  localRead : String → Except String Img
  httpRead : String → Except String Img

/-- JS `a || b` on plain strings (`""` is falsy). -/
def jsOrS (a b : String) : String := if a = "" then b else a

/-- Drop the first `n` characters of a string (JS `replace` of a fixed
prefix, e.g. stripping `local:`). -/
def stringDrop (s : String) (n : Nat) : String := String.mk (s.toList.drop n)

/-- `IconManager.getIconJimp`: descriptor dispatch.  Missing Phosphor
files and failing local/remote reads degrade to a solid
background-color square; a Phosphor SVG that exists but fails to
decode is NOT wrapped in try/catch in the source, so that failure
propagates as `Except.error`. -/
def getIconJimp (world : IconWorld) (icon : Option String) (size : Nat)
    (bgColor : String) : Except String Img :=
  match icon with
  | none => .ok (.solid size size bgColor)
  | some ic =>
    if ic = "" then .ok (.solid size size bgColor)
    else if strStartsWith ic "#" then .ok (.solid size size ic)
    else if strStartsWith ic "ph:" then
      if world.phExists ic then
        match world.phDecode ic with
        | .error e => .error e
        | .ok img =>
          .ok (Img.composited (.solid size size (jsOrS bgColor "#000000"))
            (img.cover (size - 16) (size - 16)) 8 8)
      else .ok ((Img.solid size size bgColor).cover size size)
    else if strStartsWith ic "local:" then
      match world.localRead (stringDrop ic 6) with
      | .ok img => .ok (img.cover size size)
      | .error _ => .ok ((Img.solid size size bgColor).cover size size)
    else if strStartsWith ic "http" then
      match world.httpRead ic with
      | .ok img => .ok (img.cover size size)
      | .error _ => .ok ((Img.solid size size bgColor).cover size size)
    else .ok ((Img.solid size size bgColor).cover size size)

/-- Modelled from the spec: the engine-local brightness state of the
command dispatch (`brightness_up`, `brightness_down`, `set_brightness`,
`lcd_on`, `lcd_off`, `clear`).  The implementing NavigationManager
revision is referenced by `src/index.ts` (five-argument constructor,
`updateConfig`) but is not among the sources; only its declarations
(`CommandAction` in `src/types.ts`) and the README's "Local Commands"
section are.  Per spec §4.3, brightness is an engine-local integer in
`[0, 100]`, clamped on every mutation, and `lcd_off` remembers the
brightness active immediately beforehand. -/
structure EngineState where
  brightness : ℤ := 50
  savedBrightness : Option ℤ := none
deriving DecidableEq, Repr

/-- Clamp a brightness mutation into `[0, 100]`. -/
def clampBrightness (b : ℤ) : ℤ := max 0 (min 100 b)

/-- Modelled from the spec: execute one `command` action against the
engine state, returning the new state and the device operations issued.
`brightness_up`/`brightness_down` adjust by `value` or a default step of
10; `set_brightness` sets the clamped `value`; `lcd_off` drives device
brightness to 0 while remembering the previous value; `lcd_on` restores
the remembered value (or 100 if none was remembered); unknown commands
are ignored. -/
def execCommand (s : EngineState) (command : String) (value : Option ℤ) :
    EngineState × List DeviceOp :=
  if command = "clear" then (s, [])
  else if command = "brightness_up" then
    let nb := clampBrightness (s.brightness + value.getD 10)
    ({ s with brightness := nb }, [.setBrightness nb])
  else if command = "brightness_down" then
    let nb := clampBrightness (s.brightness - value.getD 10)
    ({ s with brightness := nb }, [.setBrightness nb])
  else if command = "set_brightness" then
    match value with
    | some v =>
      let nb := clampBrightness v
      ({ s with brightness := nb }, [.setBrightness nb])
    | none => (s, [])
  else if command = "lcd_off" then
    ({ brightness := 0, savedBrightness := some s.brightness }, [.setBrightness 0])
  else if command = "lcd_on" then
    let nb := clampBrightness (s.savedBrightness.getD 100)
    ({ brightness := nb, savedBrightness := none }, [.setBrightness nb])
  else (s, [])

/-! ## Shared helper definitions and lemmas -/

/-- A rasterization oracle with constant outputs, used to instantiate
theorems at concrete inputs. -/
def constOracle : RasterOracle :=
  { textRender := fun _ => .ok [], iconRender := fun _ => .ok [] }

/-- A small concrete render context: 2-pixel icons, one device key. -/
def demoCtx : RenderCtx := { raster := constOracle, iconSize := 2, numKeys := 1 }

lemma jsTruthy_eq (a : Option String) : jsTruthy a = decide (jsOr a "" ≠ "") := by
  cases a with
  | none => rfl
  | some s =>
    by_cases h : s = "" <;> simp [jsTruthy, jsOr, h]

lemma clampBrightness_bounds (b : ℤ) :
    0 ≤ clampBrightness b ∧ clampBrightness b ≤ 100 := by
  unfold clampBrightness; omega

lemma clampBrightness_of_mem (b : ℤ) (h0 : 0 ≤ b) (h1 : b ≤ 100) :
    clampBrightness b = b := by
  unfold clampBrightness; omega

/-! ## C2: navigation to a missing page is a no-op -/

/-- C2: for every page name absent from `config.pages`, `navigateTo`
leaves the navigation state and the render cache unchanged, performs no
device operation, and only reports `Page not found`. -/
theorem navigateTo_missing_page_noop (config : DeviceConfig) (ctx : RenderCtx)
    (cache : RenderCache) (s : NavState) (target : String)
    (h : assocLookup config.pages target = none) :
    navigateTo config ctx cache s target = (s, [], cache, ["Page not found: " ++ target]) := by
  unfold navigateTo
  rw [h]

/-- Witness for C2 at a concrete configuration and target. -/
theorem navigateTo_missing_page_noop_witness :
    navigateTo { pages := [("default", [])] } demoCtx [] { currentPageName := "default" }
        "ghost"
      = ({ currentPageName := "default" }, [], [], ["Page not found: ghost"]) :=
  navigateTo_missing_page_noop { pages := [("default", [])] } demoCtx []
    { currentPageName := "default" } "ghost" (by decide)

/-! ## C3: brightness commands are clamped integer mutations -/

/-- C3: from brightness 50, `brightness_down` then `brightness_up` with
the default step 10 returns exactly to 50; `brightness_down` with value
70 clamps to 0; and every command keeps the engine brightness inside
`[0, 100]`. -/
theorem brightness_commands_clamped (s : EngineState) (h50 : s.brightness = 50) :
    (execCommand (execCommand s "brightness_down" none).1 "brightness_up" none).1.brightness = 50
  ∧ (execCommand s "brightness_down" (some 70)).1.brightness = 0
  ∧ (∀ (t : EngineState) (cmd : String) (v : Option ℤ),
      0 ≤ t.brightness → t.brightness ≤ 100 →
      0 ≤ (execCommand t cmd v).1.brightness ∧ (execCommand t cmd v).1.brightness ≤ 100) := by
  refine ⟨?_, ?_, ?_⟩
  · simp [execCommand, clampBrightness, h50]
  · simp [execCommand, clampBrightness, h50]
  · intro t cmd v h0 h1
    unfold execCommand
    split_ifs <;>
      first
      | exact ⟨h0, h1⟩
      | exact clampBrightness_bounds _
      | (cases v with
         | none => exact ⟨h0, h1⟩
         | some w => exact clampBrightness_bounds _)
      | exact ⟨le_refl 0, by norm_num⟩

/-- Witness for C3 at the concrete engine state with brightness 50. -/
theorem brightness_commands_clamped_witness :
    (execCommand (execCommand { brightness := 50 } "brightness_down" none).1
        "brightness_up" none).1.brightness = 50
  ∧ (execCommand { brightness := 50 } "brightness_down" (some 70)).1.brightness = 0
  ∧ (∀ (t : EngineState) (cmd : String) (v : Option ℤ),
      0 ≤ t.brightness → t.brightness ≤ 100 →
      0 ≤ (execCommand t cmd v).1.brightness ∧ (execCommand t cmd v).1.brightness ≤ 100) :=
  brightness_commands_clamped { brightness := 50 } (by decide)

/-! ## C4: lcd_off remembers, lcd_on restores -/

/-- C4: for every brightness `b` with `0 < b ≤ 100`, `lcd_off` drives
the device brightness to 0 and remembers `b`, and a following `lcd_on`
restores exactly `b`; when nothing was remembered `lcd_on` restores 100. -/
theorem lcd_off_on_restores (s : EngineState) (hpos : 0 < s.brightness)
    (hle : s.brightness ≤ 100) :
    (execCommand s "lcd_off" none).2 = [.setBrightness 0]
  ∧ (execCommand s "lcd_off" none).1.savedBrightness = some s.brightness
  ∧ (execCommand (execCommand s "lcd_off" none).1 "lcd_on" none).1.brightness = s.brightness
  ∧ (execCommand (execCommand s "lcd_off" none).1 "lcd_on" none).2
      = [.setBrightness s.brightness]
  ∧ (∀ (t : EngineState), t.savedBrightness = none →
      (execCommand t "lcd_on" none).1.brightness = 100) := by
  have hclamp : clampBrightness s.brightness = s.brightness :=
    clampBrightness_of_mem s.brightness (le_of_lt hpos) hle
  refine ⟨?_, ?_, ?_, ?_, ?_⟩
  · simp [execCommand]
  · simp [execCommand]
  · simp [execCommand, hclamp]
  · simp [execCommand, hclamp]
  · intro t ht
    simp [execCommand, ht, clampBrightness]

/-- Witness for C4 at the concrete brightness 42. -/
theorem lcd_off_on_restores_witness :
    (execCommand { brightness := 42 } "lcd_off" none).2 = [.setBrightness 0]
  ∧ (execCommand { brightness := 42 } "lcd_off" none).1.savedBrightness = some 42
  ∧ (execCommand (execCommand { brightness := 42 } "lcd_off" none).1
        "lcd_on" none).1.brightness = 42
  ∧ (execCommand (execCommand { brightness := 42 } "lcd_off" none).1 "lcd_on" none).2
      = [.setBrightness 42]
  ∧ (∀ (t : EngineState), t.savedBrightness = none →
      (execCommand t "lcd_on" none).1.brightness = 100) :=
  lcd_off_on_restores { brightness := 42 } (by decide) (by decide)

/-! ## C5: a config payload without pages is rejected before any side effect -/

/-- C5: for every `config/set` payload whose `pages` map is absent (or
whose JSON parsed to null), the handler keeps the previously active
configuration, performs no persistence, no navigation update and no
device operation, and publishes exactly one error acknowledgment. -/
theorem applyConfig_missing_pages_rejected (payload : Option RawConfig)
    (active : DeviceConfig)
    (h : payload = none ∨ ∃ p, payload = some p ∧ p.pages = none) :
    handleConfigSetMessage true payload active
      = (active, [.publishStatus "error" (some "Invalid config format: missing pages")]) := by
  rcases h with h | ⟨p, hp, hpages⟩
  · subst h; rfl
  · subst hp
    unfold handleConfigSetMessage
    simp [hpages]

/-- Witness for C5 at a concrete payload lacking `pages`. -/
theorem applyConfig_missing_pages_rejected_witness :
    handleConfigSetMessage true (some { brightness := some 80 })
        { pages := [("default", [])] }
      = ({ pages := [("default", [])] },
          [.publishStatus "error" (some "Invalid config format: missing pages")]) :=
  applyConfig_missing_pages_rejected (some { brightness := some 80 })
    { pages := [("default", [])] } (Or.inr ⟨{ brightness := some 80 }, rfl, rfl⟩)

/-! ## C1: the render cache is content-addressed -/

lemma renderButtonToBuffer_congr (ro : RasterOracle) (size : Nat) (a b : ButtonConfig)
    (h : getButtonHash a size = getButtonHash b size) :
    renderButtonToBuffer ro size a = renderButtonToBuffer ro size b := by
  have htext : jsOr a.text "" = jsOr b.text "" := congrArg HashInput.text h
  have hicon : jsOr a.icon "" = jsOr b.icon "" := congrArg HashInput.icon h
  have hcolor : jsOr a.color "#333333" = jsOr b.color "#333333" :=
    congrArg HashInput.color h
  simp only [renderButtonToBuffer, jsTruthy_eq, htext, hicon, hcolor, h]

lemma getKeyBuffer_some_cached (ctx : RenderCtx) (cfg : ButtonConfig)
    (cache : RenderCache) (buf : List Nat) (c1 : RenderCache) (flag : Bool)
    (h : getKeyBuffer ctx cfg cache = .ok (some buf, c1, flag)) :
    cacheLookup c1 (getButtonHash (getEffectiveConfig ctx.sm cfg) ctx.iconSize)
      = some buf := by
  unfold getKeyBuffer at h
  cases hl : cacheLookup cache (getButtonHash (getEffectiveConfig ctx.sm cfg) ctx.iconSize) with
  | some b0 =>
    simp only [hl, Except.ok.injEq, Prod.mk.injEq, Option.some.injEq] at h
    obtain ⟨hb, hc, -⟩ := h
    subst hb
    subst hc
    exact hl
  | none =>
    simp only [hl] at h
    cases hr : renderButtonToBuffer ctx.raster ctx.iconSize
        (getEffectiveConfig ctx.sm cfg) with
    | error e =>
      simp only [hr] at h
      exact absurd h (by simp)
    | ok ob =>
      simp only [hr] at h
      cases ob with
      | none => simp at h
      | some b0 =>
        simp only [Except.ok.injEq, Prod.mk.injEq, Option.some.injEq] at h
        obtain ⟨hb, hc, -⟩ := h
        subst hb
        rw [← hc]
        unfold cacheLookup
        simp

/-- C1: two button specs whose effective configs canonicalize to the
same visual fields at the same device icon size share one cache slot;
after the first render produced a buffer, rendering the second spec is a
cache hit: it returns the byte-identical buffer, adds no cache entry,
and performs no second rasterization (`false` flag), regardless of the
page or key index either spec came from. -/
theorem render_cache_content_addressed (ctx : RenderCtx) (a b : ButtonConfig)
    (cache : RenderCache) (buf : List Nat) (c1 : RenderCache) (flag : Bool)
    (hvis : getButtonHash (getEffectiveConfig ctx.sm a) ctx.iconSize
          = getButtonHash (getEffectiveConfig ctx.sm b) ctx.iconSize)
    (h1 : getKeyBuffer ctx a cache = .ok (some buf, c1, flag)) :
    getKeyBuffer ctx b c1 = .ok (some buf, c1, false) := by
  have hc := getKeyBuffer_some_cached ctx a cache buf c1 flag h1
  rw [hvis] at hc
  unfold getKeyBuffer
  rw [hc]

/-- Witness for C1: two specs on different keys with the same explicit
background color share the cached buffer. -/
theorem render_cache_content_addressed_witness :
    getKeyBuffer demoCtx { key := 7, color := some "#ff0000" }
        [({ text := "", icon := "", color := "#ff0000", iconColor := "#ffffff",
            textColor := "#ffffff", titleAlign := "middle", size := 2 },
          solidBuffer 2 255 0 0)]
      = .ok (some (solidBuffer 2 255 0 0),
          [({ text := "", icon := "", color := "#ff0000", iconColor := "#ffffff",
              textColor := "#ffffff", titleAlign := "middle", size := 2 },
            solidBuffer 2 255 0 0)], false) :=
  render_cache_content_addressed demoCtx { key := 0, color := some "#ff0000" }
    { key := 7, color := some "#ff0000" } [] (solidBuffer 2 255 0 0) _ true
    (by decide) rfl

/-! ## C7: corrected — a spec with no color at all is still rendered -/

/-- C7 counterexample: a button spec with no color, no icon and no text
is canonicalized to the default `#333333` background and rendered: the
page render pushes a solid `0x33` pixel buffer to its key instead of
leaving the key untouched. -/
theorem renderPage_empty_spec_fills_key :
    (renderPage demoCtx [{ key := 0 }] []).1
      = [DeviceOp.clearKey 0, DeviceOp.fillKeyBuffer 0 (solidBuffer 2 51 51 51)] := by
  decide

/-- C7 amended: a no-op happens only when the effective spec has no
text, no icon, and a background color that does not start with `#`
after default substitution (possible only for an explicit non-hex color
string); then no buffer is produced, nothing is cached, and the page
render pushes nothing to that key.  A spec with absent color instead
receives the default `#333333` solid fill. -/
theorem renderButton_noop_amended (ctx : RenderCtx) (cfg : ButtonConfig)
    (cache : RenderCache)
    (htext : jsTruthy (getEffectiveConfig ctx.sm cfg).text = false)
    (hicon : jsTruthy (getEffectiveConfig ctx.sm cfg).icon = false)
    (hcolor : strStartsWith (jsOr (getEffectiveConfig ctx.sm cfg).color "#333333") "#" = false)
    (hcache : cacheLookup cache
        (getButtonHash (getEffectiveConfig ctx.sm cfg) ctx.iconSize) = none) :
    getKeyBuffer ctx cfg cache = .ok (none, cache, true)
  ∧ renderPage ctx [cfg] cache
      = ((List.range ctx.numKeys).map DeviceOp.clearKey, cache, []) := by
  have hrender : renderButtonToBuffer ctx.raster ctx.iconSize
      (getEffectiveConfig ctx.sm cfg) = .ok none := by
    unfold renderButtonToBuffer
    simp [htext, hicon, hcolor]
  have hkey : getKeyBuffer ctx cfg cache = .ok (none, cache, true) := by
    unfold getKeyBuffer
    rw [hcache, hrender]
  refine ⟨hkey, ?_⟩
  unfold renderPage renderButtons
  rw [hkey]
  rfl

/-- Witness for the amended C7 at a concrete named (non-hex) color. -/
theorem renderButton_noop_amended_witness :
    getKeyBuffer demoCtx { key := 0, color := some "red" } [] = .ok (none, [], true)
  ∧ renderPage demoCtx [{ key := 0, color := some "red" }] []
      = ((List.range demoCtx.numKeys).map DeviceOp.clearKey, [], []) :=
  renderButton_noop_amended demoCtx { key := 0, color := some "red" } []
    (by decide) (by decide) (by decide) (by decide)

/-! ## C6: light style for a red light at half brightness -/

/-- An `on` light reporting `rgb_color=[255,0,0]` and `brightness=128`. -/
def redHalfBrightnessState : EntityState :=
  { entity_id := "light.x"
    state := "on"
    attributes := { rgb_color := some (255, 0, 0), brightness := some 128 } }

/-- C6: an `on` light with `rgb_color = [255, 0, 0]` and
`brightness = 128` renders with background `#800000` — each channel
scaled by the factor `max(0.3, 128/255)`, so the red channel rounds to
`0x80`, one off the spec's approximate `#7F0000` — with white icon and
text because the resulting relative luminance stays at or below `0.5`;
the brightness scale factor is never below `0.3` when a brightness
attribute is present. -/
theorem computeLightStyle_red_half_brightness :
    computeLightStyle (some redHalfBrightnessState) { key := 0 }
      = { color := "#800000", iconColor := "#ffffff", textColor := "#ffffff",
          icon := "ph:lightbulb-filament" }
  ∧ brightnessFactor (some 128) = 128 / 255
  ∧ jsRound (255 * brightnessFactor (some 128)) = 128
  ∧ (∀ b : ℚ, 3 / 10 ≤ brightnessFactor (some b))
  ∧ ((299 / 1000 * 255 + 587 / 1000 * 0 + 114 / 1000 * 0) / 255
        * brightnessFactor (some 128) ≤ 1 / 2) := by
  have hbf : brightnessFactor (some 128) = 128 / 255 := by
    show max (3 / 10 : ℚ) (128 / 255) = 128 / 255
    exact max_eq_right (by norm_num)
  have hround : jsRound (255 * brightnessFactor (some 128)) = 128 := by
    rw [hbf]; unfold jsRound; norm_num
  refine ⟨?_, hbf, hround, ?_, ?_⟩
  · have hlum : ¬ ((299 / 1000 * (255 : ℚ) + 587 / 1000 * 0 + 114 / 1000 * 0) / 255
        * brightnessFactor (some 128) > 1 / 2) := by
      rw [hbf]; norm_num
    have e1 : toHex (255 * brightnessFactor (some 128)) = "80" := by
      simp only [toHex]
      rw [hround]
      decide
    have e0 : toHex (0 * brightnessFactor (some 128)) = "00" := by
      have h0 : jsRound (0 * brightnessFactor (some 128)) = 0 := by
        rw [hbf]; unfold jsRound; norm_num
      simp only [toHex]
      rw [h0]
      decide
    calc computeLightStyle (some redHalfBrightnessState) { key := 0 }
        = ({ color := "#" ++ toHex (255 * brightnessFactor (some 128))
                ++ toHex (0 * brightnessFactor (some 128))
                ++ toHex (0 * brightnessFactor (some 128)),
             iconColor := if (299 / 1000 * (255 : ℚ) + 587 / 1000 * 0 + 114 / 1000 * 0) / 255
                  * brightnessFactor (some 128) > 1 / 2 then "#000000" else "#ffffff",
             textColor := if (299 / 1000 * (255 : ℚ) + 587 / 1000 * 0 + 114 / 1000 * 0) / 255
                  * brightnessFactor (some 128) > 1 / 2 then "#000000" else "#ffffff",
             icon := "ph:lightbulb-filament" } : LightStyle) := rfl
      _ = { color := "#800000", iconColor := "#ffffff", textColor := "#ffffff",
            icon := "ph:lightbulb-filament" } := by
          rw [if_neg hlum, e1, e0]
          rfl
  · intro b; exact le_max_left _ _
  · rw [hbf]; norm_num

/-! ## C8: corrected — failure policy of icon resolution -/

/-- An icon world in which every external interaction fails; `phExists`
answers `true`, so the vector decode failure is reached. -/
def vectorDecodeFailWorld : IconWorld :=
  { phExists := fun _ => true
    phDecode := fun _ => .error "bad svg"
    localRead := fun _ => .error "io"
    httpRead := fun _ => .error "io" }

/-- An icon world in which the vector file is missing and every read
fails. -/
def allFailWorld : IconWorld :=
  { phExists := fun _ => false
    phDecode := fun _ => .error "bad svg"
    localRead := fun _ => .error "io"
    httpRead := fun _ => .error "io" }

/-- A render context whose text pipeline throws and whose icon pipeline
returns a one-byte buffer. -/
def boomCtx : RenderCtx :=
  { raster := { textRender := fun _ => .error "boom", iconRender := fun _ => .ok [7] }
    iconSize := 1
    numKeys := 2 }

/-- C8 counterexample: a vector (Phosphor) icon whose SVG file exists
but fails to decode raises out of `getIconJimp` instead of returning a
placeholder: the Resvg/Jimp pipeline of that branch is not wrapped in
try/catch in the source. -/
theorem getIconJimp_vector_decode_raises :
    getIconJimp vectorDecodeFailWorld (some "ph:broken") 72 "#333333"
      = Except.error "bad svg" := by
  rfl

/-- C8 amended: a missing vector icon file, a failing local decode and a
failed remote fetch all degrade to a placeholder solid background-color
square instead of raising; a vector icon that exists but fails to
decode raises out of icon resolution, but `renderPage` absorbs every
per-button exception into a log entry and continues with the remaining
buttons, so rendering a page never raises to its caller. -/
theorem icon_failure_policy (world : IconWorld) (size : Nat) (bg ic e msg : String)
    (ctx : RenderCtx) (btn : ButtonConfig) (rest : List ButtonConfig)
    (cache : RenderCache) :
    (ic ≠ "" → strStartsWith ic "#" = false → strStartsWith ic "ph:" = true →
      world.phExists ic = false →
      getIconJimp world (some ic) size bg = .ok (.solid size size bg))
  ∧ (ic ≠ "" → strStartsWith ic "#" = false → strStartsWith ic "ph:" = false →
      strStartsWith ic "local:" = true →
      world.localRead (stringDrop ic 6) = .error e →
      getIconJimp world (some ic) size bg = .ok (.solid size size bg))
  ∧ (ic ≠ "" → strStartsWith ic "#" = false → strStartsWith ic "ph:" = false →
      strStartsWith ic "local:" = false → strStartsWith ic "http" = true →
      world.httpRead ic = .error e →
      getIconJimp world (some ic) size bg = .ok (.solid size size bg))
  ∧ (getKeyBuffer ctx btn cache = .error msg →
      renderPage ctx (btn :: rest) cache
        = renderButtons ctx rest cache ((List.range ctx.numKeys).map DeviceOp.clearKey)
            ["Error rendering key " ++ toString btn.key ++ ": " ++ msg]) := by
  refine ⟨?_, ?_, ?_, ?_⟩
  · intro h0 h1 h2 h3
    unfold getIconJimp
    simp [h0, h1, h2, h3, Img.cover]
  · intro h0 h1 h2 h3 h4
    unfold getIconJimp
    simp [h0, h1, h2, h3, h4, Img.cover]
  · intro h0 h1 h2 h3 h4 h5
    unfold getIconJimp
    simp [h0, h1, h2, h3, h4, h5, Img.cover]
  · intro h
    unfold renderPage
    simp only [renderButtons, h, List.nil_append]

/-- Witness for the amended C8: concrete failing worlds yield the
placeholder, and a page containing a throwing button still renders the
following button. -/
theorem icon_failure_policy_witness :
    getIconJimp allFailWorld (some "ph:gone") 72 "#333333"
      = .ok (.solid 72 72 "#333333")
  ∧ getIconJimp allFailWorld (some "local:a.png") 72 "#333333"
      = .ok (.solid 72 72 "#333333")
  ∧ getIconJimp allFailWorld (some "https://x/y.png") 72 "#333333"
      = .ok (.solid 72 72 "#333333")
  ∧ renderPage boomCtx [{ key := 0, text := some "hi" }, { key := 1, icon := some "ph:x" }] []
      = ([DeviceOp.clearKey 0, DeviceOp.clearKey 1, DeviceOp.fillKeyBuffer 1 [7]],
          [({ text := "", icon := "ph:x", color := "#333333", iconColor := "#ffffff",
              textColor := "#ffffff", titleAlign := "middle", size := 1 }, [7])],
          ["Error rendering key 0: boom"]) := by
  refine ⟨?_, ?_, ?_, ?_⟩
  · exact (icon_failure_policy allFailWorld 72 "#333333" "ph:gone" "io" "m"
      boomCtx { key := 0 } [] []).1 (by decide) (by decide) (by decide) rfl
  · exact (icon_failure_policy allFailWorld 72 "#333333" "local:a.png" "io" "m"
      boomCtx { key := 0 } [] []).2.1 (by decide) (by decide) (by decide) (by decide) rfl
  · exact (icon_failure_policy allFailWorld 72 "#333333" "https://x/y.png" "io" "m"
      boomCtx { key := 0 } [] []).2.2.1 (by decide) (by decide) (by decide) (by decide)
      (by decide) rfl
  · have hstep := (icon_failure_policy allFailWorld 72 "#333333" "x" "io" "boom"
      boomCtx { key := 0, text := some "hi" } [{ key := 1, icon := some "ph:x" }] []).2.2.2
      rfl
    rw [hstep]
    rfl

/-! ## C9: only subscribed entities mutate the state map -/

lemma processResultEntities_subscribed (l : List EntityState) :
    ∀ (s : SMState) (em : List SMEmit),
      (processResultEntities s em l).1.subscribedEntities = s.subscribedEntities := by
  induction l with
  | nil => intro s em; rfl
  | cons e rest ih =>
    intro s em
    unfold processResultEntities
    by_cases hc : s.subscribedEntities.contains e.entity_id
    · simp only [hc, if_true]
      exact ih _ _
    · simp only [hc, if_false, Bool.false_eq_true]
      exact ih _ _

lemma assocLookup_assocSet_ne {β : Type} (m : List (String × β)) (k id : String)
    (v : β) (h : id ≠ k) : assocLookup (assocSet m k v) id = assocLookup m id := by
  have hne : ¬ (k = id) := fun hh => h hh.symm
  induction m with
  | nil =>
    unfold assocSet assocLookup
    rw [if_neg hne]
    rfl
  | cons p rest ih =>
    obtain ⟨pk, pv⟩ := p
    unfold assocSet
    by_cases hpk : pk = k
    · subst hpk
      rw [if_pos rfl]
      unfold assocLookup
      rw [if_neg hne, if_neg hne]
    · rw [if_neg hpk]
      unfold assocLookup
      by_cases hid : pk = id
      · rw [if_pos hid, if_pos hid]
      · rw [if_neg hid, if_neg hid]
        exact ih

lemma processResultEntities_lookup_ne (l : List EntityState) :
    ∀ (s : SMState) (em : List SMEmit) (id : String),
      s.subscribedEntities.contains id = false →
      assocLookup (processResultEntities s em l).1.entityStates id
        = assocLookup s.entityStates id := by
  induction l with
  | nil => intro s em id _; rfl
  | cons e rest ih =>
    intro s em id h
    unfold processResultEntities
    by_cases hc : s.subscribedEntities.contains e.entity_id
    · have hne : id ≠ e.entity_id := by
        intro he
        rw [he, hc] at h
        cases h
      simp only [hc, if_true]
      rw [ih { entityStates := assocSet s.entityStates e.entity_id e,
               subscribedEntities := s.subscribedEntities }
            (em ++ [SMEmit.stateChanged e.entity_id e]) id h]
      exact assocLookup_assocSet_ne s.entityStates e.entity_id id e hne
    · simp only [hc, if_false, Bool.false_eq_true]
      exact ih _ _ _ h

lemma processResultEntities_emits (l : List EntityState) :
    ∀ (s : SMState) (em : List SMEmit),
      (∀ x ∈ em, s.subscribedEntities.contains x.entityId = true) →
      ∀ x ∈ (processResultEntities s em l).2,
        s.subscribedEntities.contains x.entityId = true := by
  induction l with
  | nil => intro s em hem; exact hem
  | cons e rest ih =>
    intro s em hem
    unfold processResultEntities
    by_cases hc : s.subscribedEntities.contains e.entity_id
    · simp only [hc, if_true]
      refine ih _ _ ?_
      intro x hx
      rcases List.mem_append.mp hx with hx | hx
      · exact hem x hx
      · rcases List.mem_singleton.mp hx with rfl
        exact hc
    · simp only [hc, if_false, Bool.false_eq_true]
      exact ih _ _ hem

/-- C9: a `state_changed` event whose entity id is outside the
subscribed set leaves the entity-state map unchanged and emits nothing;
a bulk `get_states` result never changes the stored state of an
unsubscribed id, and every `stateChanged` notification it emits carries
a subscribed id. -/
theorem stateManager_ignores_unsubscribed (s : SMState) (et eid : String)
    (ns : Option EntityState) (ok : Bool) (entities : List EntityState)
    (h : s.subscribedEntities.contains eid = false) :
    handleMessage s (.event et eid ns) = (s, [])
  ∧ getState (handleMessage s (.result ok (some entities))).1 eid = getState s eid
  ∧ ∀ em ∈ (handleMessage s (.result ok (some entities))).2,
      s.subscribedEntities.contains em.entityId = true := by
  refine ⟨?_, ?_, ?_⟩
  · show (match HAMessage.event et eid ns with
      | HAMessage.event eventType entityId newState =>
        if eventType = "state_changed" then
          match newState with
          | some ns =>
            if s.subscribedEntities.contains entityId = true then
              ({ s with entityStates := assocSet s.entityStates entityId ns },
                [SMEmit.stateChanged entityId ns])
            else (s, [])
          | none => (s, [])
        else (s, [])
      | HAMessage.result success result =>
        if success = true then
          match result with
          | some entities => processResultEntities s [] entities
          | none => (s, [])
        else (s, [])
      | HAMessage.other msgType => (s, [])) = (s, [])
    by_cases het : et = "state_changed"
    · cases ns with
      | none => simp [het]
      | some n =>
        subst het
        show (if s.subscribedEntities.contains eid = true then
            ({ s with entityStates := assocSet s.entityStates eid n },
              [SMEmit.stateChanged eid n])
          else (s, [])) = (s, [])
        rw [h]
        simp
    · simp [het]
  · have hres : handleMessage s (.result true (some entities))
        = processResultEntities s [] entities := rfl
    cases ok with
    | false => rfl
    | true =>
      rw [hres]
      exact processResultEntities_lookup_ne entities s [] eid h
  · have hres : handleMessage s (.result true (some entities))
        = processResultEntities s [] entities := rfl
    cases ok with
    | false => intro em hem; cases hem
    | true =>
      rw [hres]
      exact processResultEntities_emits entities s [] (by intro x hx; cases hx)

/-- Witness for C9 at a concrete state and unsubscribed entity id. -/
theorem stateManager_ignores_unsubscribed_witness :
    handleMessage { subscribedEntities := ["light.a"] }
        (.event "state_changed" "light.b"
          (some { entity_id := "light.b", state := "on" }))
      = ({ subscribedEntities := ["light.a"] }, [])
  ∧ getState (handleMessage { subscribedEntities := ["light.a"] }
        (.result true (some [{ entity_id := "light.b", state := "on" }]))).1 "light.b"
      = getState { subscribedEntities := ["light.a"] } "light.b"
  ∧ ∀ em ∈ (handleMessage { subscribedEntities := ["light.a"] }
        (.result true (some [{ entity_id := "light.b", state := "on" }]))).2,
      List.contains ["light.a"] em.entityId = true :=
  stateManager_ignores_unsubscribed { subscribedEntities := ["light.a"] }
    "state_changed" "light.b" (some { entity_id := "light.b", state := "on" })
    true [{ entity_id := "light.b", state := "on" }] (by decide)

/-! ## C10: computeLightStyle always yields well-formed hex colors -/

/-- Whether a character is a lower-case hex digit or a decimal digit. -/
def isHexDigit (c : Char) : Bool :=
  decide ((48 ≤ c.toNat ∧ c.toNat ≤ 57) ∨ (97 ≤ c.toNat ∧ c.toNat ≤ 102))

/-- Whether a string is a well-formed 7-character `#rrggbb` color. -/
def isHexColorString (s : String) : Bool :=
  match s.data with
  | c :: rest => (c == '#') && (rest.length == 6) && rest.all isHexDigit
  | [] => false

lemma hexDigitChar_isHex (n : Nat) (h : n < 16) : isHexDigit (hexDigitChar n) = true := by
  have hall : ∀ m, m < 16 → isHexDigit (hexDigitChar m) = true := by decide
  exact hall n h

lemma toHex_two_hex (q : ℚ) :
    (toHex q).data.length = 2 ∧ (toHex q).data.all isHexDigit = true := by
  have hb : (max 0 (min 255 (jsRound q))).toNat ≤ 255 := by omega
  have htoHex : toHex q = padStart2 (toString16 (max 0 (min 255 (jsRound q))).toNat) := rfl
  set n := (max 0 (min 255 (jsRound q))).toNat with hn
  rw [htoHex]
  by_cases h16 : n < 16
  · have hfin : padStart2 (toString16 n) = String.mk ['0', hexDigitChar n] := by
      rw [toString16, if_pos h16]
      rfl
    rw [hfin]
    refine ⟨rfl, ?_⟩
    have h0 : isHexDigit '0' = true := by decide
    simp [List.all_cons, h0, hexDigitChar_isHex n h16]
  · have hfin : padStart2 (toString16 n)
        = String.mk [hexDigitChar (n / 16), hexDigitChar (n % 16)] := by
      rw [toString16, if_neg h16]
      rfl
    rw [hfin]
    refine ⟨rfl, ?_⟩
    have hdiv : n / 16 < 16 := by omega
    have hmod : n % 16 < 16 := Nat.mod_lt _ (by norm_num)
    simp [List.all_cons, hexDigitChar_isHex _ hdiv, hexDigitChar_isHex _ hmod]

lemma isHexColorString_hash3 (a b c : ℚ) :
    isHexColorString ("#" ++ toHex a ++ toHex b ++ toHex c) = true := by
  obtain ⟨la, ha⟩ := toHex_two_hex a
  obtain ⟨lb, hb⟩ := toHex_two_hex b
  obtain ⟨lc, hc⟩ := toHex_two_hex c
  have hlist : ("#" ++ toHex a ++ toHex b ++ toHex c).data
      = '#' :: ((toHex a).data ++ (toHex b).data ++ (toHex c).data) := by
    rw [String.data_append, String.data_append, String.data_append]
    simp [List.append_assoc]
  simp only [isHexColorString, hlist]
  simp [List.length_append, la, lb, lc, List.all_append, ha, hb, hc]

/-- C10: `toHex` always yields exactly two hex digits — each channel is
rounded, clamped to `[0, 255]` and zero-padded — and `computeLightStyle`
returns a well-formed 7-character `#rrggbb` background color for every
input state, including attribute values outside their nominal ranges. -/
theorem computeLightStyle_wellformed :
    (∀ q : ℚ, (toHex q).data.length = 2 ∧ (toHex q).data.all isHexDigit = true)
  ∧ ∀ (st : Option EntityState) (base : ButtonConfig),
      isHexColorString (computeLightStyle st base).color = true := by
  refine ⟨toHex_two_hex, ?_⟩
  intro st base
  cases st with
  | none =>
    show isHexColorString "#1a1a1a" = true
    decide
  | some st =>
    simp only [computeLightStyle]
    by_cases hoff : st.state = "off" ∨ st.state = "unavailable" ∨ st.state = "unknown"
    · rw [if_pos hoff]
      show isHexColorString "#1a1a1a" = true
      decide
    · rw [if_neg hoff]
      cases hrgb : st.attributes.rgb_color with
      | some rgb =>
        simp only [hrgb]
        exact isHexColorString_hash3 _ _ _
      | none =>
        cases hhs : st.attributes.hs_color with
        | some hs =>
          simp only [hrgb, hhs]
          exact isHexColorString_hash3 _ _ _
        | none =>
          cases hct : st.attributes.color_temp with
          | some ct =>
            by_cases hct0 : ct = 0
            · simp only [hrgb, hhs, hct, if_pos hct0]
              exact isHexColorString_hash3 _ _ _
            · simp only [hrgb, hhs, hct, if_neg hct0]
              exact isHexColorString_hash3 _ _ _
          | none =>
            simp only [hrgb, hhs, hct]
            exact isHexColorString_hash3 _ _ _

end SDHA
